import Mathlib

/-!
Verification development for the fluxo_db SQL front end (lexer, AST, parser).

The definitions below are a shallow embedding of the C++ sources:
  src/lexer/lexer.h, src/lexer/lexer.cpp   (class Lexer)
  src/ast/ast_expr.h, src/ast/ast_statements.h
  src/parser/parser.h, src/parser/parser.cpp (class Parser)

Modelling conventions:
  * `std::string` input is a `List Char`; indices are `Nat`.
  * The C++ lexer keeps `position`/`readPosition`/`ch`; after the
    constructor's first `readChar()` the invariants `readPosition =
    position + 1` and `ch = input[position]` (NUL past the end) always
    hold, so the state is reduced to `pos` with `ch` derived.
  * C++ `while` loops are written as fuel-indexed structural recursions.
    Each loop body advances `pos` (or the token cursor), so fuel equal
    to the number of remaining characters (or tokens) makes the fuelled
    function extensionally equal to the source loop: when the fuel hits
    zero the scanning position is already past the end and the loop
    condition is false anyway.  Fuel choices are noted per function.
  * Exceptions (`std::runtime_error`) become `Except String`; the error
    strings are built exactly as in the source, character for character.
  * `int`/`int64_t` become `Int` (no overflow is exercised by the
    grammar's small literals; `std::stoi` range errors are out of scope).
-/

namespace Fluxo

/-- TokenType from src/lexer/lexer.h (the full enumeration). -/
inductive TokT where
  | SELECT | INSERT | INTO | VALUES | FROM | WHERE | CREATE | TABLE | DROP | DELETE | UPDATE | SET
  | PRIMARY | KEY | NOT | UNIQUE | IF | EXISTS | CASCADE | RESTRICT | ONLY | RENAME | CONSTRAINT
  | ALTER | ATTACH | DETACH | OWNED
  | FOR | DEFAULT | COLUMN | TO | SCHEMA | OWNER | ADD | TYPE | USING | COLLATE | DATABASE | VIEW
  | INDEX | TRIGGER | COLLATION | USER
  | SEQUENCE | CONCURRENTLY | FOREIGN | REFERENCES | CHECK | LOCALE | DETERMINISTIC | PROVIDER
  | RULES | TABLESPACE | ALLOW_CONNECTIONS
  | CONNECTION_LIMIT | ENCODING | ON | ASC | DESC | NULLS | FIRST | LAST | BEFORE | AFTER
  | INSTEAD | OF | OR | TRUNCATE | EXECUTE
  | FUNCTION | EACH | ROW | STATEMENT | WHEN | AUTHORIZATION | TEMPORARY | INCREMENT | BY
  | MINVALUE | MAXVALUE | CYCLE | START
  | WITH | NO | CACHE | NONE | ROLE | PASSWORD | LOGIN | NO_LOGIN | SUPERUSER | CONNECTION
  | LIMIT | VALID | UNTIL | NO_SUPERUSER | CREATE_ROLE
  | NO_CREATE_ROLE | INHERIT | NO_INHERIT | CREATE_DB | NO_CREATE_DB | REPLACE | RECURSIVE | AS
  | NULL_TYPE
  | IDENTIFIER | STRING | NUMBER
  | COMMA | SEMICOLON | ASTERISK | DOT | EQUALS | LPAREN | RPAREN | APOSTROPHE
  | PLUS | MINUS | SLASH | PERCENT | CARET | EOF_TOKEN
  | TRUE | FALSE
  | ILLEGAL | UNKNOWN
deriving DecidableEq, Repr

/-- struct Token { TokenType type; std::string literal; int line; int column; } -/
structure Token where
  type : TokT
  literal : String
  line : Int
  col : Int
deriving DecidableEq, Repr

/-- Lexer state. `pos` is the C++ `position` member; `readPosition` is
always `pos + 1` and the current character `ch` is derived (`chAt`). -/
structure LexState where
  input : List Char
  pos : Nat
  line : Int
  col : Int
deriving DecidableEq, Repr

/-- `input[p]`, or the NUL sentinel past the end (C++ readChar sets
`ch = 0` when `readPosition >= input.length()`). -/
def chAt (input : List Char) (p : Nat) : Char := input.getD p (Char.ofNat 0)

/-- Current character of the lexer. -/
def ch (st : LexState) : Char := chAt st.input st.pos

/-- void Lexer::readChar() — advance one character, bumping `column`. -/
def readChar (st : LexState) : LexState :=
  { st with pos := st.pos + 1, col := st.col + 1 }

/-- Initial state after the Lexer constructor (which performs one
`readChar()`): position 0, line 1, column 1. -/
def initLex (input : List Char) : LexState :=
  { input := input, pos := 0, line := 1, col := 1 }

def nulC : Char := Char.ofNat 0

def quoteC : Char := Char.ofNat 39

/-- isalpha(ch) in the C locale, restricted to ASCII letters. -/
def isalphaC (c : Char) : Bool := (65 ≤ c.toNat && c.toNat ≤ 90) || (97 ≤ c.toNat && c.toNat ≤ 122)

/-- isdigit(ch). -/
def isdigitC (c : Char) : Bool := 48 ≤ c.toNat && c.toNat ≤ 57

/-- Loop body of Lexer::skipWhitespace.  Fuel `input.length - pos`
suffices: each iteration advances `pos`, and once `pos` is past the end
the current character is NUL, which is not whitespace. -/
def skipWsAux : Nat → LexState → LexState
  | 0, st => st
  | n + 1, st =>
    let c := ch st
    if c == ' ' || c == '\t' || c == '\n' || c == '\r' then
      let st1 := if c == '\n' then { st with line := st.line + 1, col := 0 } else st
      skipWsAux n (readChar st1)
    else st

/-- void Lexer::skipWhitespace() -/
def skipWhitespace (st : LexState) : LexState :=
  skipWsAux (st.input.length - st.pos) st

/-- Loop of Lexer::readIdentifier: consume while alphanumeric or
underscore, returning the consumed characters.  Fuel as in skipWsAux. -/
def readIdentAux : Nat → LexState → List Char × LexState
  | 0, st => ([], st)
  | n + 1, st =>
    let c := ch st
    if isalphaC c || c == '_' || isdigitC c then
      let r := readIdentAux n (readChar st)
      (c :: r.1, r.2)
    else ([], st)

/-- std::string Lexer::readIdentifier() -/
def readIdentifier (st : LexState) : String × LexState :=
  let r := readIdentAux (st.input.length - st.pos) st
  (String.mk r.1, r.2)

/-- Loop of Lexer::readNumber: consume digits and dots. -/
def readNumAux : Nat → LexState → List Char × LexState
  | 0, st => ([], st)
  | n + 1, st =>
    let c := ch st
    if isdigitC c || c == '.' then
      let r := readNumAux n (readChar st)
      (c :: r.1, r.2)
    else ([], st)

/-- std::string Lexer::readNumber() -/
def readNumber (st : LexState) : String × LexState :=
  let r := readNumAux (st.input.length - st.pos) st
  (String.mk r.1, r.2)

/-- Loop of Lexer::readString: consume until closing quote or NUL. -/
def readStrAux : Nat → LexState → List Char × LexState
  | 0, st => ([], st)
  | n + 1, st =>
    let c := ch st
    if c != quoteC && c != nulC then
      let r := readStrAux n (readChar st)
      (c :: r.1, r.2)
    else ([], st)

/-- std::string Lexer::readString(): skip the opening quote, capture the
content, consume the closing quote if present (unterminated literals end
at the NUL sentinel). -/
def readString (st : LexState) : String × LexState :=
  let st1 := readChar st
  let r := readStrAux (st1.input.length - st1.pos) st1
  let st2 := if ch r.2 == quoteC then readChar r.2 else r.2
  (String.mk r.1, st2)

/-- Keyword table rows 1-12 of src/lexer/lexer.h (member `keywords`; the
table is split into chunks only to keep elaboration fast — `keywords`
below concatenates them in source order). -/
def kw1 : List (String × TokT) :=
  [("SELECT", TokT.SELECT), ("INSERT", TokT.INSERT), ("INTO", TokT.INTO), ("VALUES", TokT.VALUES),
   ("FROM", TokT.FROM), ("WHERE", TokT.WHERE), ("CREATE", TokT.CREATE), ("TABLE", TokT.TABLE),
   ("DROP", TokT.DROP), ("DELETE", TokT.DELETE), ("UPDATE", TokT.UPDATE), ("SET", TokT.SET)]

/-- Keyword table rows 13-24. -/
def kw2 : List (String × TokT) :=
  [("PRIMARY", TokT.PRIMARY), ("KEY", TokT.KEY), ("NOT", TokT.NOT), ("UNIQUE", TokT.UNIQUE),
   ("IF", TokT.IF), ("EXISTS", TokT.EXISTS), ("CASCADE", TokT.CASCADE), ("RESTRICT", TokT.RESTRICT),
   ("ONLY", TokT.ONLY), ("RENAME", TokT.RENAME), ("CONSTRAINT", TokT.CONSTRAINT), ("ALTER", TokT.ALTER)]

/-- Keyword table rows 25-36. -/
def kw3 : List (String × TokT) :=
  [("ATTACH", TokT.ATTACH), ("DETACH", TokT.DETACH), ("OWNED", TokT.OWNED), ("FOR", TokT.FOR),
   ("DEFAULT", TokT.DEFAULT), ("COLUMN", TokT.COLUMN), ("TO", TokT.TO), ("SCHEMA", TokT.SCHEMA),
   ("OWNER", TokT.OWNER), ("ADD", TokT.ADD), ("TYPE", TokT.TYPE), ("USING", TokT.USING)]

/-- Keyword table rows 37-48. -/
def kw4 : List (String × TokT) :=
  [("COLLATE", TokT.COLLATE), ("DATABASE", TokT.DATABASE), ("VIEW", TokT.VIEW),
   ("INDEX", TokT.INDEX), ("TRIGGER", TokT.TRIGGER), ("COLLATION", TokT.COLLATION),
   ("USER", TokT.USER), ("SEQUENCE", TokT.SEQUENCE), ("CONCURRENTLY", TokT.CONCURRENTLY),
   ("FOREIGN", TokT.FOREIGN), ("CHECK", TokT.CHECK), ("REFERENCES", TokT.REFERENCES)]

/-- Keyword table rows 49-60. -/
def kw5 : List (String × TokT) :=
  [("LOCALE", TokT.LOCALE), ("DETERMINISTIC", TokT.DETERMINISTIC), ("PROVIDER", TokT.PROVIDER),
   ("RULES", TokT.RULES), ("TRUE", TokT.TRUE), ("FALSE", TokT.FALSE),
   ("TABLESPACE", TokT.TABLESPACE), ("ALLOW_CONNECTIONS", TokT.ALLOW_CONNECTIONS),
   ("CONNECTION_LIMIT", TokT.CONNECTION_LIMIT), ("ENCODING", TokT.ENCODING), ("ON", TokT.ON),
   ("ASC", TokT.ASC)]

/-- Keyword table rows 61-72. -/
def kw6 : List (String × TokT) :=
  [("ASCENDING", TokT.ASC), ("DESC", TokT.DESC), ("DESCENDING", TokT.DESC),
   ("NULLS", TokT.NULLS), ("FIRST", TokT.FIRST), ("LAST", TokT.LAST), ("BEFORE", TokT.BEFORE),
   ("AFTER", TokT.AFTER), ("INSTEAD", TokT.INSTEAD), ("OF", TokT.OF),
   ("TRUNCATE", TokT.TRUNCATE), ("OR", TokT.OR)]

/-- Keyword table rows 73-84. -/
def kw7 : List (String × TokT) :=
  [("EXECUTE", TokT.EXECUTE), ("FUNCTION", TokT.FUNCTION), ("EACH", TokT.EACH),
   ("ROW", TokT.ROW), ("STATEMENT", TokT.STATEMENT), ("WHEN", TokT.WHEN),
   ("AUTHORIZATION", TokT.AUTHORIZATION), ("TEMPORARY", TokT.TEMPORARY), ("TEMP", TokT.TEMPORARY),
   ("INCREMENT", TokT.INCREMENT), ("BY", TokT.BY), ("MINVALUE", TokT.MINVALUE)]

/-- Keyword table rows 85-96. -/
def kw8 : List (String × TokT) :=
  [("MAXVALUE", TokT.MAXVALUE), ("CYCLE", TokT.CYCLE), ("START", TokT.START),
   ("WITH", TokT.WITH), ("NO", TokT.NO), ("CACHE", TokT.CACHE), ("NONE", TokT.NONE),
   ("ROLE", TokT.ROLE), ("PASSWORD", TokT.PASSWORD), ("LOGIN", TokT.LOGIN),
   ("NOLOGIN", TokT.NO_LOGIN), ("SUPERUSER", TokT.SUPERUSER)]

/-- Keyword table rows 97-111 (end of the table). -/
def kw9 : List (String × TokT) :=
  [("CONNECTION", TokT.CONNECTION), ("LIMIT", TokT.LIMIT), ("VALID", TokT.VALID),
   ("UNTIL", TokT.UNTIL), ("NOSUPERUSER", TokT.NO_SUPERUSER), ("CREATEROLE", TokT.CREATE_ROLE),
   ("NOCREATEROLE", TokT.NO_CREATE_ROLE), ("INHERIT", TokT.INHERIT),
   ("NOINHERIT", TokT.NO_INHERIT), ("CREATEDB", TokT.CREATE_DB), ("NOCREATEDB", TokT.NO_CREATE_DB),
   ("REPLACE", TokT.REPLACE), ("RECURSIVE", TokT.RECURSIVE), ("AS", TokT.AS),
   ("NULL", TokT.NULL_TYPE)]

/-- The complete keyword table from src/lexer/lexer.h in source order. -/
def keywords : List (String × TokT) :=
  kw1 ++ kw2 ++ kw3 ++ kw4 ++ kw5 ++ kw6 ++ kw7 ++ kw8 ++ kw9

/-- ::toupper on an ASCII char, as applied per character in lookupIdent
(Char.toUpper maps a-z to A-Z and leaves everything else alone, matching
the C locale on the ASCII inputs this grammar uses). -/
def toupperStr (s : String) : String := String.mk (s.data.map Char.toUpper)

/-- TokenType Lexer::lookupIdent(const std::string&): case-insensitive
keyword lookup, defaulting to IDENTIFIER. -/
def lookupIdent (ident : String) : TokT :=
  match keywords.lookup (toupperStr ident) with
  | some t => t
  | none => .IDENTIFIER

/-- Token Lexer::NextToken().  Single-character symbols fall through to a
final readChar(); identifier/number tokens use `column - length` for the
token column; the STRING token records the line/column reached after the
literal (the C++ code overwrites tok.line/tok.column after readString). -/
def NextToken (st0 : LexState) : Token × LexState :=
  let st := skipWhitespace st0
  let c := ch st
  if c == ',' then (⟨.COMMA, String.mk [c], st.line, st.col⟩, readChar st)
  else if c == ';' then (⟨.SEMICOLON, String.mk [c], st.line, st.col⟩, readChar st)
  else if c == '*' then (⟨.ASTERISK, String.mk [c], st.line, st.col⟩, readChar st)
  else if c == '.' then (⟨.DOT, String.mk [c], st.line, st.col⟩, readChar st)
  else if c == '=' then (⟨.EQUALS, String.mk [c], st.line, st.col⟩, readChar st)
  else if c == '(' then (⟨.LPAREN, String.mk [c], st.line, st.col⟩, readChar st)
  else if c == ')' then (⟨.RPAREN, String.mk [c], st.line, st.col⟩, readChar st)
  else if c == '+' then (⟨.PLUS, String.mk [c], st.line, st.col⟩, readChar st)
  else if c == '-' then (⟨.MINUS, String.mk [c], st.line, st.col⟩, readChar st)
  else if c == '%' then (⟨.PERCENT, String.mk [c], st.line, st.col⟩, readChar st)
  else if c == '^' then (⟨.CARET, String.mk [c], st.line, st.col⟩, readChar st)
  else if c == quoteC then
    let r := readString st
    (⟨.STRING, r.1, r.2.line, r.2.col⟩, r.2)
  else if c == nulC then (⟨.EOF_TOKEN, String.mk [c], st.line, st.col⟩, readChar st)
  else if isalphaC c || c == '_' then
    let r := readIdentifier st
    (⟨lookupIdent r.1, r.1, r.2.line, r.2.col - r.1.length⟩, r.2)
  else if isdigitC c then
    let r := readNumber st
    (⟨.NUMBER, r.1, r.2.line, r.2.col - r.1.length⟩, r.2)
  else (⟨.ILLEGAL, String.mk [c], st.line, st.col⟩, readChar st)

/-- The eager tokenization loop of the Parser constructor: collect tokens
until EOF_TOKEN, then append the EOF token.  Fuel `input.length + 2`
suffices because every non-EOF token consumes at least one character
(proved below for claim C9); when the fuel runs out an empty suffix is
returned (which the sufficiency theorem shows never happens). -/
def tokenizeAux : Nat → LexState → List Token
  | 0, _ => []
  | n + 1, st =>
    let r := NextToken st
    if r.1.type == .EOF_TOKEN then [r.1] else r.1 :: tokenizeAux n r.2

/-- Full tokenization of an input string (Parser::Parser). -/
def tokenize (input : String) : List Token :=
  tokenizeAux (input.length + 2) (initLex input.data)

/-! ## AST model (src/ast/ast_expr.h, src/ast/ast_statements.h) -/

/-- enum class DataType -/
inductive DataType where
  | INTEGER | BIGINT | TEXT | BOOLEAN | DOUBLE | DATE | TIMESTAMP | VARCHAR | NULL_TYPE
deriving DecidableEq, Repr

/-- The payload variant of LiteralValue:
std::variant of monostate, int64_t, double, bool, std::string.
The double alternative keeps the raw source text of the literal: the only
producer is parse_primary's `std::stod(literal)` and no consumer in the
verified claims inspects a floating-point value, so the conversion itself
is left unmodeled. -/
inductive LitVal where
  | mono
  | vint (i : Int)
  | vdouble (raw : String)
  | vbool (b : Bool)
  | vstr (s : String)
deriving DecidableEq, Repr

/-- struct LiteralValue (defaults: NULL type, empty payload). -/
structure LiteralValue where
  type : DataType := .NULL_TYPE
  value : LitVal := .mono
deriving DecidableEq, Repr

/-- struct TableRef.  C++ field `alias` is a Lean keyword and is renamed
`alias_`. -/
structure TableRef where
  name : String := ""
  alias_ : Option String := none
deriving DecidableEq, Repr

/-- BinaryOp::Op -/
inductive BinOpK where
  | PLUS | MINUS | MUL | DIV | EQ | NEQ | MOD | LT | LTE
  | GT | GTE | AND | OR | LIKE | ILIKE | NOT_LIKE
deriving DecidableEq, Repr

/-- UnaryOp::Op -/
inductive UnOpK where
  | NOT | IS_NULL | IS_NOT_NULL | MINUS
deriving DecidableEq, Repr

/-- The Expr variant from ast_expr.h.  The C++ type is a std::variant
whose recursive alternatives are held through std::unique_ptr; the
indirection is flattened into one inductive.  `mono` is the monostate
(empty expression) alternative. -/
inductive Expr where
  | mono
  | col (name : String) (table_name : Option String)
  | lit (v : LiteralValue)
  | bin (op : BinOpK) (left right : Expr)
  | un (op : UnOpK) (operand : Expr)
  | call (name : String) (args : List Expr) (is_aggregate : Bool)
  | castE (e : Expr) (target_type : DataType)
deriving Repr

/-- struct ColumnDef.  `type` has no default member initializer in C++
(indeterminate until assigned; every parser path assigns it before the
value is read), so the Lean default is arbitrary. -/
structure ColumnDef where
  name : String := ""
  type : DataType := .INTEGER
  not_null : Bool := false
  primary_key : Bool := false
  unique : Bool := false
deriving Repr

/-- struct SelectStmt.  C++ fields `from` and `where` are Lean keywords
and are renamed `from_clause` / `where_clause`. -/
structure SelectStmt where
  projections : List Expr := []
  from_clause : List TableRef := []
  where_clause : Option Expr := none
  having : Option Expr := none
  group_by : List Expr := []
  order_by : List (Expr × Bool) := []
  limit : Option Int := none
  offset : Option Int := none
  distinct : Bool := false
deriving Repr

/-- struct InsertStmt -/
structure InsertStmt where
  table_name : String := ""
  columns : List String := []
  values : List (List Expr) := []
deriving Repr

/-- struct AddColumnAction -/
structure AddColumnAction where
  column_def : ColumnDef := {}
  if_not_exists : Bool := false
deriving Repr

/-- struct AddConstraintAction -/
structure AddConstraintAction where
  column_name : String := ""
  not_null : Bool := false
  unique : Bool := false
  primary_key : Bool := false
deriving Repr

/-- struct DropColumnAction -/
structure DropColumnAction where
  column_name : String := ""
  if_exists : Bool := false
  cascade : Bool := false
deriving Repr

/-- struct DropConstraintAction -/
structure DropConstraintAction where
  constraint_name : String := ""
  if_exists : Bool := false
  cascade : Bool := false
deriving Repr

/-- struct AlterColumnTypeAction.  Default-construction of the C++
variant value-initializes this first alternative, zeroing `new_type` to
DataType(0) = INTEGER; the Lean defaults reproduce that. -/
structure AlterColumnTypeAction where
  column_name : String := ""
  new_type : DataType := .INTEGER
  using_expr : Expr := .mono
  collation : String := ""
deriving Repr

/-- struct AlterColumnDefaultAction -/
structure AlterColumnDefaultAction where
  column_name : String := ""
  default_expr : Expr := .mono
  is_drop : Bool := false
deriving Repr

/-- struct AlterColumnNotNullAction -/
structure AlterColumnNotNullAction where
  column_name : String := ""
  set_not_null : Bool := true
deriving Repr

/-- struct RenameColumnAction -/
structure RenameColumnAction where
  old_name : String := ""
  new_name : String := ""
deriving Repr

/-- struct RenameTableAction -/
structure RenameTableAction where
  new_name : String := ""
deriving Repr

/-- struct RenameConstraintAction -/
structure RenameConstraintAction where
  old_name : String := ""
  new_name : String := ""
deriving Repr

/-- struct SetSchemaAction -/
structure SetSchemaAction where
  schema_name : String := ""
deriving Repr

/-- struct OwnerToAction -/
structure OwnerToAction where
  new_owner : String := ""
deriving Repr

/-- using AddAction = std::variant of AddColumnAction, AddConstraintAction -/
inductive AddAction where
  | colA (a : AddColumnAction)
  | constrA (a : AddConstraintAction)
deriving Repr

/-- using DropAction = std::variant of DropColumnAction, DropConstraintAction -/
inductive DropAction where
  | colD (a : DropColumnAction)
  | constrD (a : DropConstraintAction)
deriving Repr

/-- using AlterColumnAction = std::variant of the three alter-column actions -/
inductive AlterColumnAction where
  | typeA (a : AlterColumnTypeAction)
  | defaultA (a : AlterColumnDefaultAction)
  | notNullA (a : AlterColumnNotNullAction)
deriving Repr

/-- using RenameAction = std::variant of the three rename actions -/
inductive RenameAction where
  | colR (a : RenameColumnAction)
  | tableR (a : RenameTableAction)
  | constrR (a : RenameConstraintAction)
deriving Repr

/-- using AlterAction = std::variant over the six action families -/
inductive AlterAction where
  | addA (a : AddAction)
  | dropA (a : DropAction)
  | alterColA (a : AlterColumnAction)
  | renameA (a : RenameAction)
  | setSchemaA (a : SetSchemaAction)
  | ownerToA (a : OwnerToAction)
deriving Repr

/-- struct CreateCollationStmt -/
structure CreateCollationStmt where
  collation_name : String := ""
  locale : String := ""
  if_not_exists : Bool := false
  deterministic : Bool := true
  provider : Option String := none
  version : Option String := none
  rules : Option String := none
  existing_collation_name : Option String := none
deriving Repr

/-- struct CreateDatabaseStmt -/
structure CreateDatabaseStmt where
  name : String := ""
  if_not_exists : Bool := false
  user_name : String := "DEFAULT"
  encoding : String := "UTF-8"
  tablespace_name : String := "fx_default"
  allow_conn : Bool := true
  conn_limit : Int := -1
deriving Repr

/-- enum class OrderDirection -/
inductive OrderDirection where
  | ASC | DESC
deriving DecidableEq, Repr

/-- struct IndexElem -/
structure IndexElem where
  name : Option String := none
  expr : Option Expr := none
  collation : Option String := none
  op_class : Option String := none
  ordering : OrderDirection := .ASC
  nulls_first : Option Bool := none
deriving Repr

/-- struct CreateIndexStmt (`where` renamed `where_clause`). -/
structure CreateIndexStmt where
  index_name : String := ""
  table_name : String := ""
  unique : Bool := false
  if_not_exists : Bool := false
  concurrently : Bool := false
  only : Bool := false
  method : Option String := none
  params : List IndexElem := []
  where_clause : Option Expr := none
  tablespace : Option String := none
deriving Repr

/-- enum class TriggerEvent -/
inductive TriggerEvent where
  | INSERT | UPDATE | DELETE | TRUNCATE
deriving DecidableEq, Repr

/-- enum class TriggerTiming -/
inductive TriggerTiming where
  | BEFORE | AFTER | INSTEAD_OF
deriving DecidableEq, Repr

/-- enum class TriggerForEach -/
inductive TriggerForEach where
  | ROW | STATEMENT
deriving DecidableEq, Repr

/-- struct CreateTriggerStmt.  The C++ `timing` member is an enum with no
initializer (indeterminate until assigned; every successful parse assigns
it or throws first), so the Lean default is arbitrary. -/
structure CreateTriggerStmt where
  trigger_name : String := ""
  table_name : String := ""
  timing : TriggerTiming := .BEFORE
  events : List TriggerEvent := []
  update_of_columns : Option (List String) := none
  function_name : String := ""
  function_args : List Expr := []
  for_each : TriggerForEach := .STATEMENT
  when : Option Expr := none
deriving Repr

/-- struct CreateSequenceStmt -/
structure CreateSequenceStmt where
  sequence_name : String := ""
  if_not_exists : Bool := false
  temporary : Bool := false
  start_value : Int := 1
  increment_by : Int := 1
  min_value : Option Int := none
  max_value : Option Int := none
  cycle : Bool := false
  cache_size : Option Int := none
  owner : Option (String × String) := none
deriving DecidableEq, Repr

/-- struct CreateRoleStmt -/
structure CreateRoleStmt where
  role_name : String := ""
  if_not_exists : Bool := false
  superuser : Bool := false
  createdb : Bool := false
  createrole : Bool := false
  inherit : Bool := true
  login : Bool := false
  conn_limit : Option Int := none
  valid_until : Option String := none
  password : Option String := none
deriving DecidableEq, Repr

/-- struct CreateViewStmt -/
structure CreateViewStmt where
  view_name : String := ""
  temporary : Bool := false
  or_replace : Bool := false
  recursive : Bool := false
  columns : List String := []
  select_stmt : SelectStmt := {}
deriving Repr

/-- TableConstraint::Type -/
inductive TableConstraintType where
  | PRIMARY_KEY | FOREIGN_KEY | UNIQUE | CHECK
deriving DecidableEq, Repr

/-- struct TableConstraint.  `type` has no initializer in C++ (assigned
before return on every non-throwing path), so the Lean default is
arbitrary.  The fk action chars keep their C++ defaults. -/
structure TableConstraint where
  type : TableConstraintType := .PRIMARY_KEY
  name : String := ""
  columns : List String := []
  foreign_table : Option String := none
  foreign_columns : List String := []
  fk_match_type : Char := 's'
  fk_update_action : Char := 'a'
  fk_delete_action : Char := 'a'
  check_expr : Option Expr := none
deriving Repr

/-- struct CreateTableStmt -/
structure CreateTableStmt where
  table_name : String := ""
  columns : List ColumnDef := []
  constraints : List TableConstraint := []
  if_not_exists : Bool := false
  tablespace : Option String := none
deriving Repr

/-- using SchemaElement = std::variant over nested CREATE kinds -/
inductive SchemaElement where
  | table (s : CreateTableStmt)
  | index (s : CreateIndexStmt)
  | view (s : CreateViewStmt)
  | seq (s : CreateSequenceStmt)
  | trigger (s : CreateTriggerStmt)
deriving Repr

/-- struct CreateSchemaStmt -/
structure CreateSchemaStmt where
  schema_name : String := ""
  if_not_exists : Bool := false
  authorization : Option String := none
  schema_elements : Option (List SchemaElement) := none
deriving Repr

/-- using CreateStmt = std::variant over the nine create-kinds -/
inductive CreateStmt where
  | table (s : CreateTableStmt)
  | index (s : CreateIndexStmt)
  | view (s : CreateViewStmt)
  | schema (s : CreateSchemaStmt)
  | trigger (s : CreateTriggerStmt)
  | seq (s : CreateSequenceStmt)
  | database (s : CreateDatabaseStmt)
  | collation (s : CreateCollationStmt)
  | role (s : CreateRoleStmt)
deriving Repr

/-- enum class ObjectType -/
inductive ObjectType where
  | TABLE | VIEW | INDEX | SCHEMA | TRIGGER | SEQUENCE | COLLATION | DATABASE | USER | TYPE
deriving DecidableEq, Repr

/-- struct DropStmt.  `object_type` has no initializer in C++ (assigned
in the dispatch switch or the function throws), so the default is
arbitrary. -/
structure DropStmt where
  object_type : ObjectType := .TABLE
  names : List String := []
  if_exists : Bool := false
  cascade : Bool := false
  restrict : Bool := false
  concurrently : Bool := false
deriving DecidableEq, Repr

/-- struct AlterTableStmt -/
structure AlterTableStmt where
  table_name : String := ""
  if_exists : Bool := false
  actions : List AlterAction := []
deriving Repr

/-- using Statement = std::variant over the five statement kinds -/
inductive Statement where
  | select (s : SelectStmt)
  | insert (s : InsertStmt)
  | create (s : CreateStmt)
  | drop (s : DropStmt)
  | alter (s : AlterTableStmt)
deriving Repr

/-! ## Parser primitives (src/parser/parser.cpp lines 108-174) -/

/-- Parser cursor state: the eagerly built token buffer and the
`position` member. -/
structure PState where
  tokens : List Token
  pos : Nat
deriving Repr

/-- The out-of-bounds sentinel Token{EOF_TOKEN, "", -1, -1} returned by
current/advance/peek past the end of the buffer. -/
def sentinel : Token := ⟨.EOF_TOKEN, "", -1, -1⟩

/-- Token Parser::current() const -/
def pcurrent (st : PState) : Token := st.tokens.getD st.pos sentinel

/-- Token Parser::advance() -/
def padvance (st : PState) : Token × PState :=
  if st.pos < st.tokens.length then (st.tokens.getD st.pos sentinel, { st with pos := st.pos + 1 })
  else (sentinel, st)

/-- bool Parser::match(TokenType) -/
def pmatch (ty : TokT) (st : PState) : Bool × PState :=
  if (pcurrent st).type == ty then (true, (padvance st).2) else (false, st)

/-- bool Parser::is_end() const -/
def pIsEnd (st : PState) : Bool := (pcurrent st).type == .EOF_TOKEN

/-- The parsing monad: the cursor state threaded through `Except`; the
first thrown error aborts the parse (C++ exception propagation). -/
abbrev PM (α : Type) := StateT PState (Except String) α

def currentM : PM Token := fun st => .ok (pcurrent st, st)

def advanceM : PM Token := fun st => .ok (padvance st)

def matchM (ty : TokT) : PM Bool := fun st => .ok (pmatch ty st)

def isEndM : PM Bool := fun st => .ok (pIsEnd st, st)

def liftE {α : Type} (e : Except String α) : PM α := fun st => e.map (fun a => (a, st))

/-- Token Parser::expect(TokenType, const std::string&): match and return
`tokens[position - 1]`, or throw the message with the current token's
line/column appended. -/
def pexpect (ty : TokT) (msg : String) (st : PState) : Except String (Token × PState) :=
  let r := pmatch ty st
  if r.1 then .ok (r.2.tokens.getD (r.2.pos - 1) sentinel, r.2)
  else .error (msg ++ " at line " ++ toString (pcurrent st).line ++ ", column " ++
               toString (pcurrent st).col)

def expectM (ty : TokT) (msg : String) : PM Token := fun st => pexpect ty msg st

/-- static std::string errMsg(const Token&, const std::string&) -/
def errMsg (tk : Token) (msg : String) : String :=
  msg ++ " at line " ++ toString tk.line ++ ", column " ++ toString tk.col

/-- static int get_precedence(TokenType) -/
def get_precedence : TokT → Int
  | .ASTERISK | .SLASH | .PERCENT => 5
  | .PLUS | .MINUS => 4
  | .EQUALS | .CARET => 3
  | .UNKNOWN => 2
  | _ => 0

/-- static BinaryOp::Op token_to_binop(TokenType): the mapping throws on
any other token (note: CARET has precedence 3 but no mapping here). -/
def token_to_binop : TokT → Except String BinOpK
  | .PLUS => .ok .PLUS
  | .MINUS => .ok .MINUS
  | .ASTERISK => .ok .MUL
  | .SLASH => .ok .DIV
  | .EQUALS => .ok .EQ
  | .PERCENT => .ok .MOD
  | _ => .error "Unknown binary operator token"

/-- static DataType token_to_data_type(const Token&).  The failure
message reproduces the source exactly (including the missing space
before "at line:" and the colons). -/
def token_to_data_type (tk : Token) : Except String DataType :=
  let fail : Except String DataType :=
    .error ("Unknown data type: " ++ tk.literal ++ "at line: " ++ toString tk.line ++
            ", column: " ++ toString tk.col)
  if tk.type == .IDENTIFIER then
    let type_name := toupperStr tk.literal
    if type_name == "INT" || type_name == "INTEGER" then .ok .INTEGER
    else if type_name == "BIGINT" then .ok .BIGINT
    else if type_name == "DOUBLE" || type_name == "FLOAT" || type_name == "REAL" then .ok .DOUBLE
    else if type_name == "TEXT" then .ok .TEXT
    else if type_name == "VARCHAR" then .ok .VARCHAR
    else if type_name == "BOOLEAN" || type_name == "BOOL" then .ok .BOOLEAN
    else if type_name == "DATE" then .ok .DATE
    else fail
  else fail

/-- std::stoi restricted to the NUMBER tokens the lexer produces (a
leading digit, then digits and dots): the value of the longest leading
digit prefix.  Signs are consumed separately by determine_sign, and the
32-bit range is not exercised by this grammar's literals. -/
def stoiModel (s : String) : Int :=
  Int.ofNat ((s.data.takeWhile isdigitC).foldl (fun a c => a * 10 + (c.toNat - 48)) 0)

/-- int64_t Parser::determine_sign() -/
def determine_signM : PM Int := do
  let m ← matchM .MINUS
  if m then pure (-1) else pure 1

/-- Error used when a fuel counter reaches zero.  The top-level `parse`
passes fuel dominating the recursion depth of every reachable call
chain, so the message never escapes on the inputs considered here. -/
def fuelMsg : String := "internal fuel exhausted"

/-! ## Expression parsing (parse_expression / parse_primary) -/

mutual

/-- Expression Parser::parse_primary() (parser.cpp lines 1222-1252). -/
def parse_primary (fuel0 : Nat) : PM Expr :=
  match fuel0 with
  | 0 => throw fuelMsg
  | fuel + 1 => do
    let tok ← currentM
    match tok.type with
    | .IDENTIFIER => do
        _ ← advanceM
        pure (.col tok.literal none)
    | .NUMBER => do
        _ ← advanceM
        if tok.literal.contains '.' then
          pure (.lit ⟨.DOUBLE, .vdouble tok.literal⟩)
        else
          pure (.lit ⟨.INTEGER, .vint (stoiModel tok.literal)⟩)
    | .STRING => do
        _ ← advanceM
        pure (.lit ⟨.TEXT, .vstr tok.literal⟩)
    | .LPAREN => do
        _ ← advanceM
        let e ← parse_expression fuel 0
        _ ← expectM .RPAREN "Expected \x27)\x27"
        pure e
    | _ =>
        throw ("Unknown expression token " ++ tok.literal ++ " at line " ++
               toString tok.line ++ ", column " ++ toString tok.col)
termination_by structural fuel0

/-- Expression Parser::parse_expression(int precedence): parse one
primary then enter the precedence-climbing loop. -/
def parse_expression (fuel0 : Nat) (precedence : Int) : PM Expr :=
  match fuel0 with
  | 0 => throw fuelMsg
  | fuel + 1 => do
    let left ← parse_primary fuel
    climbLoop fuel precedence left
termination_by structural fuel0

/-- The `while (true)` precedence-climbing loop of parse_expression: stop
when the current token's precedence is at most the floor, otherwise
consume the operator, parse the right side with the operator's own
precedence as the new floor, and fold a BinaryOp node.  (The two
std::cout debug prints in the loop do not affect the result.) -/
def climbLoop (fuel0 : Nat) (precedence : Int) (left0 : Expr) : PM Expr :=
  match fuel0 with
  | 0 => throw fuelMsg
  | fuel + 1 => do
    let tok ← currentM
    let tokPrec := get_precedence tok.type
    if tokPrec ≤ precedence then
      pure left0
    else do
      _ ← advanceM
      let op ← liftE (token_to_binop tok.type)
      let right ← parse_expression fuel tokPrec
      climbLoop fuel precedence (.bin op left0 right)
termination_by structural fuel0

end

/-! ## Statement parsers (src/parser/parser.cpp lines 176-1185) -/

/-- A `do { element } while (match(sep));` loop collecting the parsed
elements in order.  One fuel unit per iteration. -/
def sepLoop {α : Type} (sep : TokT) (fuel0 : Nat) (body : PM α) : PM (List α) :=
  match fuel0 with
  | 0 => throw fuelMsg
  | fuel + 1 => do
    let x ← body
    let m ← matchM sep
    if m then do
      let xs ← sepLoop sep fuel body
      pure (x :: xs)
    else pure [x]
termination_by structural fuel0

/-- SelectStmt Parser::parse_select_stmt() (the SELECT keyword has
already been consumed by parse_statement). -/
def parse_select_stmt (fuel : Nat) : PM SelectStmt := do
  let projections ← sepLoop .COMMA fuel (do
    let m ← matchM .ASTERISK
    if m then pure (Expr.col "*" none)
    else parse_expression fuel 0)
  let mFrom ← matchM .FROM
  let from_clause ← if mFrom then
      sepLoop .COMMA fuel (do
        let t ← expectM .IDENTIFIER "Expected table name after FROM"
        pure (⟨t.literal, none⟩ : TableRef))
    else pure []
  let mWhere ← matchM .WHERE
  let where_clause ← if mWhere then do
      let e ← parse_expression fuel 0
      pure (some e)
    else pure (none : Option Expr)
  pure { projections, from_clause, where_clause }

/-- InsertStmt Parser::parse_insert_stmt() (the INSERT keyword has
already been consumed by parse_statement).  The body is transcribed as
written: despite its comment saying "Expect: INTO table_name" it expects
a second INSERT token, and never consumes an INTO. -/
def parse_insert_stmt (fuel : Nat) : PM InsertStmt := do
  let cur ← currentM
  _ ← expectM .INSERT ("Expected INSERT keyword at line " ++ toString cur.line ++
                       ", column " ++ toString cur.col)
  let table_token ← expectM .IDENTIFIER "Expected table name after INSERT"
  let mLp ← matchM .LPAREN
  let columns ← if mLp then do
      let cols ← sepLoop .COMMA fuel (do
        let c ← expectM .IDENTIFIER "Expected column name in INSERT"
        pure c.literal)
      _ ← expectM .VALUES "Expected VALUES keyword after column list in INSERT"
      pure cols
    else pure []
  let values ← sepLoop .COMMA fuel (do
    _ ← expectM .LPAREN "Expected \x27(\x27 before values list"
    let row ← sepLoop .COMMA fuel (parse_expression fuel 0)
    _ ← expectM .RPAREN "Expected \x27)\x27 after values list"
    pure row)
  pure { table_name := table_token.literal, columns, values }

/-- The inline-constraint loop of parse_column_def: runs while the
current token is neither COMMA nor RPAREN, folding the flags into the
ColumnDef. -/
def colDefConstrLoop (fuel0 : Nat) (cd : ColumnDef) : PM ColumnDef :=
  match fuel0 with
  | 0 => throw fuelMsg
  | fuel + 1 => do
    let cur ← currentM
    if cur.type != .COMMA && cur.type != .RPAREN then do
      if (← matchM .NOT) then do
        let c ← currentM
        _ ← expectM .NULL_TYPE (errMsg c "Expected NULL after NOT in column constraint")
        colDefConstrLoop fuel { cd with not_null := true }
      else if (← matchM .UNIQUE) then
        colDefConstrLoop fuel { cd with unique := true }
      else if (← matchM .PRIMARY) then do
        let c ← currentM
        _ ← expectM .KEY (errMsg c "Expected KEY after PRIMARY in column constraint")
        colDefConstrLoop fuel { cd with primary_key := true }
      else
        throw ("Unknown column constraint in column definition at line " ++
               toString cur.line ++ ", column " ++ toString cur.col)
    else pure cd
termination_by structural fuel0

/-- ColumnDef Parser::parse_column_def() -/
def parse_column_def (fuel : Nat) : PM ColumnDef := do
  let c ← currentM
  let col_name_token ← expectM .IDENTIFIER (errMsg c "Expected column name in column definition")
  let type_token ← advanceM
  let ty ← liftE (token_to_data_type type_token)
  colDefConstrLoop fuel { name := col_name_token.literal, type := ty }

/-- TableConstraint Parser::parse_table_constraint() -/
def parse_table_constraint (fuel : Nat) : PM TableConstraint := do
  let mC ← matchM .CONSTRAINT
  let cname ← if mC then do
      let t ← expectM .IDENTIFIER "Expected constraint name after CONSTRAINT"
      pure t.literal
    else pure ""
  let cur ← currentM
  match cur.type with
  | .PRIMARY => do
      _ ← advanceM
      let c ← currentM
      _ ← expectM .KEY (errMsg c "Expected KEY after PRIMARY in table constraint")
      let c ← currentM
      _ ← expectM .LPAREN (errMsg c "Expected \x27(\x27 after PRIMARY KEY in table constraint")
      let cols ← sepLoop .COMMA fuel (do
        let c ← currentM
        let t ← expectM .IDENTIFIER (errMsg c "Expected column name in PRIMARY KEY constraint")
        pure t.literal)
      let c ← currentM
      _ ← expectM .RPAREN (errMsg c "Expected \x27)\x27 after column list in PRIMARY KEY constraint")
      pure { type := .PRIMARY_KEY, name := cname, columns := cols }
  | .UNIQUE => do
      _ ← advanceM
      let c ← currentM
      _ ← expectM .LPAREN (errMsg c "Expected \x27(\x27 after UNIQUE in table constraint")
      let cols ← sepLoop .COMMA fuel (do
        let c ← currentM
        let t ← expectM .IDENTIFIER (errMsg c "Expected column name in UNIQUE constraint")
        pure t.literal)
      let c ← currentM
      _ ← expectM .RPAREN (errMsg c "Expected \x27)\x27 after column list in UNIQUE constraint")
      pure { type := .UNIQUE, name := cname, columns := cols }
  | .FOREIGN => do
      _ ← advanceM
      let c ← currentM
      _ ← expectM .KEY (errMsg c "Expected KEY after FOREIGN in table constraint")
      let c ← currentM
      _ ← expectM .LPAREN (errMsg c "Expected \x27(\x27 after FOREIGN KEY in table constraint")
      let cols ← sepLoop .COMMA fuel (do
        let c ← currentM
        let t ← expectM .IDENTIFIER (errMsg c "Expected column name in FOREIGN KEY constraint")
        pure t.literal)
      let c ← currentM
      _ ← expectM .RPAREN (errMsg c "Expected \x27)\x27 after column list in FOREIGN KEY constraint")
      let c ← currentM
      _ ← expectM .REFERENCES (errMsg c "Expected REFERENCES in FOREIGN KEY constraint")
      let c ← currentM
      let ft ← expectM .IDENTIFIER (errMsg c "Expected referenced table name in FOREIGN KEY constraint")
      let c ← currentM
      _ ← expectM .LPAREN (errMsg c "Expected \x27(\x27 after referenced table name in FOREIGN KEY constraint")
      let fcols ← sepLoop .COMMA fuel (do
        let c ← currentM
        let t ← expectM .IDENTIFIER (errMsg c "Expected referenced column name in FOREIGN KEY constraint")
        pure t.literal)
      let c ← currentM
      _ ← expectM .RPAREN (errMsg c "Expected \x27)\x27 after referenced column list in FOREIGN KEY constraint")
      pure { type := .FOREIGN_KEY, name := cname, columns := cols,
             foreign_table := some ft.literal, foreign_columns := fcols }
  | .CHECK => do
      _ ← advanceM
      let c ← currentM
      _ ← expectM .LPAREN (errMsg c "Expected \x27(\x27 after CHECK in table constraint")
      let e ← parse_expression fuel 0
      let c ← currentM
      _ ← expectM .RPAREN (errMsg c "Expected \x27)\x27 after CHECK expression in table constraint")
      pure { type := .CHECK, name := cname, check_expr := some e }
  | _ =>
      throw ("Unknown table constraint type at line " ++ toString cur.line ++
             ", column " ++ toString cur.col)

/-- The trailing `while (current().type != RPAREN)` constraint loop of
parse_create_table_stmt (reachable only when the element region is empty
or at EOF). -/
def ctTailLoop (fuel0 : Nat) (fuel : Nat) : PM (List TableConstraint) :=
  match fuel0 with
  | 0 => throw fuelMsg
  | n + 1 => do
    let cur ← currentM
    if cur.type != .RPAREN then do
      let tc ← parse_table_constraint fuel
      _ ← matchM .COMMA
      let rest ← ctTailLoop n fuel
      pure (tc :: rest)
    else pure []
termination_by structural fuel0

/-- CreateTableStmt Parser::parse_create_table_stmt() (CREATE already
consumed by parse_statement).  Transcribed faithfully, bugs included: no
LPAREN is consumed after the table name, and the element `while` loop
ends its first iteration with `expect(RPAREN); return stmt;`, so it runs
at most once (hence the `first`/comma branch of the source is dead and
the loop is written as a single conditional block). -/
def parse_create_table_stmt (fuel : Nat) : PM CreateTableStmt := do
  let c ← currentM
  _ ← expectM .TABLE (errMsg c "Expected TABLE keyword after CREATE")
  let mIf ← matchM .IF
  let ine ← if mIf then do
      let c ← currentM
      _ ← expectM .NOT (errMsg c "Expected NOT after IF in CREATE TABLE")
      let c ← currentM
      _ ← expectM .EXISTS (errMsg c "Expected EXISTS after NOT in CREATE TABLE")
      pure true
    else pure false
  let c ← currentM
  let table_name_token ← expectM .IDENTIFIER (errMsg c "Expected table name after CREATE TABLE")
  let stmt0 : CreateTableStmt := { table_name := table_name_token.literal, if_not_exists := ine }
  let cur ← currentM
  if cur.type != .RPAREN && cur.type != .EOF_TOKEN then do
    let stmt1 ←
      if cur.type == .CONSTRAINT || cur.type == .PRIMARY || cur.type == .FOREIGN ||
         cur.type == .CHECK || cur.type == .UNIQUE then do
        let tc ← parse_table_constraint fuel
        pure { stmt0 with constraints := stmt0.constraints ++ [tc] }
      else do
        let cd ← parse_column_def fuel
        pure { stmt0 with columns := stmt0.columns ++ [cd] }
    let c ← currentM
    _ ← expectM .RPAREN (errMsg c "Expected \x27)\x27 after table definition")
    pure stmt1
  else do
    let constraints ← ctTailLoop fuel fuel
    let c ← currentM
    _ ← expectM .RPAREN (errMsg c "Expected \x27)\x27 after column definitions in CREATE TABLE")
    pure { stmt0 with constraints := stmt0.constraints ++ constraints }

/-- DropStmt Parser::parse_drop_stmt() (DROP already consumed).  Note the
short-circuit in the source: for INDEX the `match(CONCURRENTLY)` is not
evaluated (no token is consumed). -/
def parse_drop_stmt (fuel : Nat) : PM DropStmt := do
  let cur ← currentM
  let oty ← match cur.type with
    | .TABLE => pure ObjectType.TABLE
    | .VIEW => pure ObjectType.VIEW
    | .INDEX => pure ObjectType.INDEX
    | .SCHEMA => pure ObjectType.SCHEMA
    | .TRIGGER => pure ObjectType.TRIGGER
    | .SEQUENCE => pure ObjectType.SEQUENCE
    | .COLLATION => pure ObjectType.COLLATION
    | .DATABASE => pure ObjectType.DATABASE
    | .USER => pure ObjectType.USER
    | .TYPE => pure ObjectType.TYPE
    | _ => throw ("Unknown object type in DROP statement at line " ++ toString cur.line ++
                  ", column " ++ toString cur.col)
  _ ← advanceM
  let conc ← if oty == ObjectType.INDEX then pure true else matchM .CONCURRENTLY
  let mIf ← matchM .IF
  let ifex ← if mIf then do
      let c ← currentM
      _ ← expectM .EXISTS (errMsg c "Expected EXISTS after IF in DROP statement")
      pure true
    else pure false
  let names ← sepLoop .COMMA fuel (do
    let c ← currentM
    let t ← expectM .IDENTIFIER (errMsg c "Expected object name in DROP statement")
    pure t.literal)
  let mCas ← matchM .CASCADE
  if mCas then
    pure { object_type := oty, names, if_exists := ifex, cascade := true, concurrently := conc }
  else do
    let mRes ← matchM .RESTRICT
    pure { object_type := oty, names, if_exists := ifex, restrict := mRes, concurrently := conc }

/-- The optional-constraint loop of parse_add_action's ADD COLUMN branch:
runs while the current token is none of COMMA, SEMICOLON, EOF. -/
def addColConstrLoop (fuel0 : Nat) (cd : ColumnDef) : PM ColumnDef :=
  match fuel0 with
  | 0 => throw fuelMsg
  | fuel + 1 => do
    let cur ← currentM
    if cur.type != .COMMA && cur.type != .SEMICOLON && cur.type != .EOF_TOKEN then do
      if (← matchM .NOT) then do
        let c ← currentM
        _ ← expectM .NULL_TYPE (errMsg c "Expected NULL after NOT in column constraint")
        addColConstrLoop fuel { cd with not_null := true }
      else if (← matchM .UNIQUE) then
        addColConstrLoop fuel { cd with unique := true }
      else if (← matchM .PRIMARY) then do
        let c ← currentM
        _ ← expectM .KEY (errMsg c "Expected KEY after PRIMARY in column constraint")
        addColConstrLoop fuel { cd with primary_key := true }
      else
        throw ("Unknown column constraint in ADD COLUMN at line " ++ toString cur.line ++
               ", column " ++ toString cur.col)
    else pure cd
termination_by structural fuel0

/-- The constraint loop of parse_add_action's ADD CONSTRAINT branch. -/
def addConstrFlagsLoop (fuel0 : Nat) (a : AddConstraintAction) : PM AddConstraintAction :=
  match fuel0 with
  | 0 => throw fuelMsg
  | fuel + 1 => do
    let cur ← currentM
    if cur.type != .COMMA && cur.type != .SEMICOLON && cur.type != .EOF_TOKEN then do
      if (← matchM .NOT) then do
        let c ← currentM
        _ ← expectM .NULL_TYPE (errMsg c "Expected NULL after NOT in constraint")
        addConstrFlagsLoop fuel { a with not_null := true }
      else if (← matchM .UNIQUE) then
        addConstrFlagsLoop fuel { a with unique := true }
      else if (← matchM .PRIMARY) then do
        let c ← currentM
        _ ← expectM .KEY (errMsg c "Expected KEY after PRIMARY in constraint")
        addConstrFlagsLoop fuel { a with primary_key := true }
      else
        throw ("Unknown constraint in ADD CONSTRAINT at line " ++ toString cur.line ++
               ", column " ++ toString cur.col)
    else pure a
termination_by structural fuel0

/-- AddAction Parser::parse_add_action() -/
def parse_add_action (fuel : Nat) : PM AddAction := do
  if (← matchM .COLUMN) then do
    let mIf ← matchM .IF
    let ine ← if mIf then do
        let c ← currentM
        _ ← expectM .NOT (errMsg c "Expected NOT after IF in ADD COLUMN")
        let c ← currentM
        _ ← expectM .EXISTS (errMsg c "Expected EXISTS after NOT in ADD COLUMN")
        pure true
      else pure false
    let c ← currentM
    let nameTok ← expectM .IDENTIFIER (errMsg c "Expected column name after ADD COLUMN")
    let type_token ← advanceM
    let ty ← liftE (token_to_data_type type_token)
    let cd ← addColConstrLoop fuel { name := nameTok.literal, type := ty }
    pure (.colA { column_def := cd, if_not_exists := ine })
  else if (← matchM .CONSTRAINT) then do
    let c ← currentM
    let nameTok ← expectM .IDENTIFIER (errMsg c "Expected column name after ADD CONSTRAINT")
    let a ← addConstrFlagsLoop fuel { column_name := nameTok.literal }
    pure (.constrA a)
  else do
    let cur ← currentM
    throw ("Expected COLUMN or CONSTRAINT after ADD in ALTER TABLE at line " ++
           toString cur.line ++ ", column " ++ toString cur.col)

/-- DropAction Parser::parse_drop_action() -/
def parse_drop_action : PM DropAction := do
  if (← matchM .COLUMN) then do
    let mIf ← matchM .IF
    let ifex ← if mIf then do
        let c ← currentM
        _ ← expectM .EXISTS (errMsg c "Expected EXISTS after IF in DROP COLUMN")
        pure true
      else pure false
    let c ← currentM
    let nameTok ← expectM .IDENTIFIER (errMsg c "Expected column name after DROP COLUMN")
    let cas ← matchM .CASCADE
    pure (.colD { column_name := nameTok.literal, if_exists := ifex, cascade := cas })
  else if (← matchM .CONSTRAINT) then do
    let mIf ← matchM .IF
    let ifex ← if mIf then do
        let c ← currentM
        _ ← expectM .EXISTS (errMsg c "Expected EXISTS after IF in DROP CONSTRAINT")
        pure true
      else pure false
    let c ← currentM
    let nameTok ← expectM .IDENTIFIER (errMsg c "Expected constraint name after DROP CONSTRAINT")
    let cas ← matchM .CASCADE
    pure (.constrD { constraint_name := nameTok.literal, if_exists := ifex, cascade := cas })
  else do
    let cur ← currentM
    throw ("Expected COLUMN or CONSTRAINT after DROP in ALTER TABLE at line " ++
           toString cur.line ++ ", column " ++ toString cur.col)

/-- AlterColumnAction Parser::parse_alter_column_action().  The branches
with no match fall through and return the default-constructed variant
(AlterColumnTypeAction value-initialized, column name empty), exactly as
the source does. -/
def parse_alter_column_action (fuel : Nat) : PM AlterColumnAction := do
  let c ← currentM
  _ ← expectM .COLUMN (errMsg c "Expected COLUMN after ALTER in ALTER TABLE")
  let c ← currentM
  let colTok ← expectM .IDENTIFIER (errMsg c "Expected column name after ALTER COLUMN")
  let column_name := colTok.literal
  if (← matchM .TYPE) then do
    let type_token ← advanceM
    let ty ← liftE (token_to_data_type type_token)
    let usingE ← if (← matchM .USING) then parse_expression fuel 0 else pure Expr.mono
    let collation ← if (← matchM .COLLATE) then do
        let c ← currentM
        let t ← expectM .IDENTIFIER (errMsg c "Expected collation name after COLLATE")
        pure t.literal
      else pure ""
    pure (.typeA { column_name, new_type := ty, using_expr := usingE, collation })
  else if (← matchM .SET) then do
    if (← matchM .DEFAULT) then do
      let e ← parse_expression fuel 0
      pure (.defaultA { column_name, default_expr := e })
    else if (← matchM .NOT) then do
      let c ← currentM
      _ ← expectM .NULL_TYPE (errMsg c "Expected NULL after NOT in ALTER COLUMN")
      pure (.notNullA { column_name, set_not_null := true })
    else pure (.typeA {})
  else if (← matchM .DROP) then do
    if (← matchM .DEFAULT) then
      pure (.defaultA { column_name, is_drop := true })
    else if (← matchM .NOT) then do
      let c ← currentM
      _ ← expectM .NULL_TYPE (errMsg c "Expected NULL after NOT in ALTER COLUMN")
      pure (.notNullA { column_name, set_not_null := false })
    else pure (.typeA {})
  else pure (.typeA {})

/-- RenameAction Parser::parse_rename_action() -/
def parse_rename_action : PM RenameAction := do
  if (← matchM .COLUMN) then do
    let c ← currentM
    let o ← expectM .IDENTIFIER (errMsg c "Expected old column name after RENAME COLUMN")
    let c ← currentM
    _ ← expectM .TO (errMsg c "Expected TO after old column name in RENAME COLUMN")
    let c ← currentM
    let n ← expectM .IDENTIFIER (errMsg c "Expected new column name after TO in RENAME COLUMN")
    pure (.colR { old_name := o.literal, new_name := n.literal })
  else if (← matchM .CONSTRAINT) then do
    let c ← currentM
    let o ← expectM .IDENTIFIER (errMsg c "Expected old constraint name after RENAME CONSTRAINT")
    let c ← currentM
    _ ← expectM .TO (errMsg c "Expected TO after old constraint name in RENAME CONSTRAINT")
    let c ← currentM
    let n ← expectM .IDENTIFIER (errMsg c "Expected new constraint name after TO in RENAME CONSTRAINT")
    pure (.constrR { old_name := o.literal, new_name := n.literal })
  else do
    let cur ← currentM
    if cur.type == .TO then do
      _ ← advanceM
      pure ()
    let c ← currentM
    let n ← expectM .IDENTIFIER (errMsg c "Expected new table name after TO in RENAME TABLE")
    pure (.tableR { new_name := n.literal })

/-- SetSchemaAction Parser::parse_set_schema_action() -/
def parse_set_schema_action : PM SetSchemaAction := do
  let c ← currentM
  _ ← expectM .SCHEMA (errMsg c "Expected SCHEMA after SET in ALTER TABLE")
  let c ← currentM
  let t ← expectM .IDENTIFIER (errMsg c "Expected schema name after SET SCHEMA")
  pure { schema_name := t.literal }

/-- OwnerToAction Parser::parse_owner_to_action() -/
def parse_owner_to_action : PM OwnerToAction := do
  let c ← currentM
  _ ← expectM .TO (errMsg c "Expected TO after OWNER in ALTER TABLE")
  let c ← currentM
  let t ← expectM .IDENTIFIER (errMsg c "Expected new owner name after TO in SET OWNER")
  pure { new_owner := t.literal }

/-- AlterAction Parser::parse_alter_table_action() -/
def parse_alter_table_action (fuel : Nat) : PM AlterAction := do
  if (← matchM .ADD) then do
    let a ← parse_add_action fuel
    pure (.addA a)
  else if (← matchM .DROP) then do
    let a ← parse_drop_action
    pure (.dropA a)
  else if (← matchM .ALTER) then do
    let a ← parse_alter_column_action fuel
    pure (.alterColA a)
  else if (← matchM .RENAME) then do
    let a ← parse_rename_action
    pure (.renameA a)
  else if (← matchM .SET) then do
    let a ← parse_set_schema_action
    pure (.setSchemaA a)
  else if (← matchM .OWNER) then do
    let a ← parse_owner_to_action
    pure (.ownerToA a)
  else do
    let cur ← currentM
    throw ("Unknown ALTER TABLE action at line " ++ toString cur.line ++
           ", column " ++ toString cur.col)

/-- AlterTableStmt Parser::parse_alter_table_stmt() (ALTER consumed). -/
def parse_alter_table_stmt (fuel : Nat) : PM AlterTableStmt := do
  let c ← currentM
  _ ← expectM .TABLE (errMsg c "Expected TABLE keyword after ALTER")
  let mIf ← matchM .IF
  let ifex ← if mIf then do
      let c ← currentM
      _ ← expectM .EXISTS (errMsg c "Expected EXISTS after IF in ALTER TABLE")
      pure true
    else pure false
  let c ← currentM
  let tTok ← expectM .IDENTIFIER (errMsg c "Expected table name after ALTER TABLE")
  let actions ← sepLoop .COMMA fuel (parse_alter_table_action fuel)
  pure { table_name := tTok.literal, if_exists := ifex, actions }

/-- The option loop of parse_create_sequence_stmt: while the current
token is neither SEMICOLON nor EOF, dispatch on the option keyword. -/
def seqOptLoop (fuel0 : Nat) (stmt : CreateSequenceStmt) : PM CreateSequenceStmt :=
  match fuel0 with
  | 0 => throw fuelMsg
  | fuel + 1 => do
    let cur ← currentM
    if cur.type != .SEMICOLON && cur.type != .EOF_TOKEN then
      match cur.type with
      | .INCREMENT => do
          _ ← advanceM
          let c ← currentM
          _ ← expectM .BY (errMsg c "Expected BY after INCREMENT in CREATE SEQUENCE")
          let sign ← determine_signM
          let c ← currentM
          let t ← expectM .NUMBER (errMsg c "Expected number after INCREMENT BY in CREATE SEQUENCE")
          seqOptLoop fuel { stmt with increment_by := stoiModel t.literal * sign }
      | .MINVALUE => do
          _ ← advanceM
          let sign ← determine_signM
          let c ← currentM
          let t ← expectM .NUMBER (errMsg c "Expected number after MINVALUE in CREATE SEQUENCE")
          seqOptLoop fuel { stmt with min_value := some (stoiModel t.literal * sign) }
      | .MAXVALUE => do
          _ ← advanceM
          let sign ← determine_signM
          let c ← currentM
          let t ← expectM .NUMBER (errMsg c "Expected number after MAXVALUE in CREATE SEQUENCE")
          seqOptLoop fuel { stmt with max_value := some (stoiModel t.literal * sign) }
      | .CYCLE => do
          _ ← advanceM
          seqOptLoop fuel { stmt with cycle := true }
      | .START => do
          _ ← advanceM
          let c ← currentM
          _ ← expectM .WITH (errMsg c "Expected WITH after START in CREATE SEQUENCE")
          let sign ← determine_signM
          let c ← currentM
          let t ← expectM .NUMBER (errMsg c "Expected number after START WITH in CREATE SEQUENCE")
          seqOptLoop fuel { stmt with start_value := stoiModel t.literal * sign }
      | .CACHE => do
          _ ← advanceM
          let c ← currentM
          let t ← expectM .NUMBER (errMsg c "Expected number after CACHE in CREATE SEQUENCE")
          seqOptLoop fuel { stmt with cache_size := some (stoiModel t.literal) }
      | .NO => do
          _ ← advanceM
          if (← matchM .CYCLE) then seqOptLoop fuel { stmt with cycle := false }
          else if (← matchM .MINVALUE) then seqOptLoop fuel { stmt with min_value := none }
          else if (← matchM .MAXVALUE) then seqOptLoop fuel { stmt with max_value := none }
          else do
            let c ← currentM
            throw ("Expected CYCLE, MINVALUE, or MAXVALUE after NO in CREATE SEQUENCE at line " ++
                   toString c.line ++ ", column " ++ toString c.col)
      | .OWNED => do
          _ ← advanceM
          let c ← currentM
          _ ← expectM .BY (errMsg c "Expected BY after OWNED in CREATE SEQUENCE")
          if (← matchM .NONE) then seqOptLoop fuel { stmt with owner := none }
          else do
            let c ← currentM
            let tTok ← expectM .IDENTIFIER (errMsg c "Expected table name after OWNED BY in CREATE SEQUENCE")
            let c ← currentM
            _ ← expectM .DOT (errMsg c "Expected \x27.\x27 between table and column name in OWNED BY in CREATE SEQUENCE")
            let c ← currentM
            let cTok ← expectM .IDENTIFIER (errMsg c "Expected column name after \x27.\x27 in OWNED BY in CREATE SEQUENCE")
            seqOptLoop fuel { stmt with owner := some (tTok.literal, cTok.literal) }
      | _ =>
          throw ("Unknown option in CREATE SEQUENCE at line " ++ toString cur.line ++
                 ", column " ++ toString cur.col)
    else pure stmt
termination_by structural fuel0

/-- CreateSequenceStmt Parser::parse_create_sequence_stmt().  (Only
reachable through the dead parse_create_stmt dispatcher; parse_statement
routes CREATE to parse_create_table_stmt instead.) -/
def parse_create_sequence_stmt (fuel : Nat) : PM CreateSequenceStmt := do
  let mTemp ← matchM .TEMPORARY
  let c ← currentM
  _ ← expectM .SEQUENCE (errMsg c "Expected SEQUENCE keyword in CREATE SEQUENCE")
  let mIf ← matchM .IF
  let ine ← if mIf then do
      let c ← currentM
      _ ← expectM .NOT (errMsg c "Expected NOT after IF in CREATE SEQUENCE")
      let c ← currentM
      _ ← expectM .EXISTS (errMsg c "Expected EXISTS after NOT in CREATE SEQUENCE")
      pure true
    else pure false
  let c ← currentM
  let nameTok ← expectM .IDENTIFIER (errMsg c "Expected sequence name after CREATE SEQUENCE")
  seqOptLoop fuel { sequence_name := nameTok.literal, temporary := mTemp, if_not_exists := ine }

/-- Models `stmt.update_of_columns->emplace_back(x)` from
parse_create_trigger_stmt: `operator->` on a disengaged std::optional is
undefined behavior in C++, so the disengaged case is made explicit as a
failure the theorems can observe; the engaged case appends. -/
def optAppend (o : Option (List String)) (x : String) : Except String (Option (List String)) :=
  match o with
  | some l => .ok (some (l ++ [x]))
  | none => .error "undefined behavior: dereference of disengaged optional update_of_columns"

/-- The `do { ... } while (match(COMMA))` column loop of the UPDATE OF
clause in parse_create_trigger_stmt. -/
def updateOfLoop (fuel0 : Nat) (o : Option (List String)) : PM (Option (List String)) :=
  match fuel0 with
  | 0 => throw fuelMsg
  | fuel + 1 => do
    let c ← currentM
    let t ← expectM .IDENTIFIER (errMsg c "Expected column name after UPDATE OF in CREATE TRIGGER")
    let o2 ← liftE (optAppend o t.literal)
    if (← matchM .COMMA) then updateOfLoop fuel o2
    else pure o2
termination_by structural fuel0

/-- The `do { ... } while (match(OR))` event loop of
parse_create_trigger_stmt. -/
def triggerEventsLoop (fuel0 : Nat) (stmt : CreateTriggerStmt) : PM CreateTriggerStmt :=
  match fuel0 with
  | 0 => throw fuelMsg
  | fuel + 1 => do
    let stmt2 ← do
      if (← matchM .INSERT) then pure { stmt with events := stmt.events ++ [.INSERT] }
      else if (← matchM .UPDATE) then do
        let stmt1 : CreateTriggerStmt := { stmt with events := stmt.events ++ [.UPDATE] }
        if (← matchM .OF) then do
          let o ← updateOfLoop fuel stmt1.update_of_columns
          pure { stmt1 with update_of_columns := o }
        else pure stmt1
      else if (← matchM .DELETE) then pure { stmt with events := stmt.events ++ [.DELETE] }
      else if (← matchM .TRUNCATE) then pure { stmt with events := stmt.events ++ [.TRUNCATE] }
      else do
        let cur ← currentM
        throw ("Expected trigger event (INSERT, UPDATE, DELETE, TRUNCATE) in CREATE TRIGGER at line " ++
               toString cur.line ++ ", column " ++ toString cur.col)
    if (← matchM .OR) then triggerEventsLoop fuel stmt2
    else pure stmt2
termination_by structural fuel0

/-- CreateTriggerStmt Parser::parse_create_trigger_stmt().  (Only
reachable through the dead parse_create_stmt dispatcher.) -/
def parse_create_trigger_stmt (fuel : Nat) : PM CreateTriggerStmt := do
  let c ← currentM
  _ ← expectM .TRIGGER (errMsg c "Expected TRIGGER keyword in CREATE TRIGGER")
  let c ← currentM
  let nameTok ← expectM .IDENTIFIER (errMsg c "Expected trigger name in CREATE TRIGGER")
  let timing ← do
    if (← matchM .BEFORE) then pure TriggerTiming.BEFORE
    else if (← matchM .AFTER) then pure TriggerTiming.AFTER
    else if (← matchM .INSTEAD) then do
      let c ← currentM
      _ ← expectM .OF (errMsg c "Expected OF after INSTEAD in CREATE TRIGGER")
      pure TriggerTiming.INSTEAD_OF
    else do
      let cur ← currentM
      throw ("Expected trigger timing (BEFORE, AFTER, INSTEAD OF) in CREATE TRIGGER at line " ++
             toString cur.line ++ ", column " ++ toString cur.col)
  let stmt1 ← triggerEventsLoop fuel { trigger_name := nameTok.literal, timing }
  let stmt2 ← do
    if (← matchM .FOR) then
      if (← matchM .EACH) then
        if (← matchM .ROW) then pure { stmt1 with for_each := TriggerForEach.ROW }
        else if (← matchM .STATEMENT) then pure { stmt1 with for_each := TriggerForEach.STATEMENT }
        else do
          let cur ← currentM
          throw ("Expected ROW or STATEMENT after EACH in CREATE TRIGGER at line " ++
                 toString cur.line ++ ", column " ++ toString cur.col)
      else do
        let cur ← currentM
        throw ("Expected EACH after FOR in CREATE TRIGGER at line " ++
               toString cur.line ++ ", column " ++ toString cur.col)
    else pure stmt1
  let stmt3 ← do
    if (← matchM .WHEN) then do
      let c ← currentM
      _ ← expectM .LPAREN (errMsg c "Expected \x27(\x27 after WHEN in CREATE TRIGGER")
      let e ← parse_expression fuel 0
      let c ← currentM
      _ ← expectM .RPAREN (errMsg c "Expected \x27)\x27 after WHEN expression in CREATE TRIGGER")
      pure { stmt2 with when := some e }
    else pure stmt2
  let c ← currentM
  _ ← expectM .ON (errMsg c "Expected ON keyword in CREATE TRIGGER")
  let c ← currentM
  let tTok ← expectM .IDENTIFIER (errMsg c "Expected table name in CREATE TRIGGER")
  let c ← currentM
  _ ← expectM .EXECUTE (errMsg c "Expected EXECUTE keyword in CREATE TRIGGER")
  let c ← currentM
  _ ← expectM .FUNCTION (errMsg c "Expected FUNCTION keyword in CREATE TRIGGER")
  let c ← currentM
  let fTok ← expectM .IDENTIFIER (errMsg c "Expected function name in CREATE TRIGGER")
  let stmt4 : CreateTriggerStmt :=
    { stmt3 with table_name := tTok.literal, function_name := fTok.literal }
  if (← matchM .LPAREN) then do
    let cur ← currentM
    let args ← if cur.type != .RPAREN then sepLoop .COMMA fuel (parse_expression fuel 0)
      else pure []
    let c ← currentM
    _ ← expectM .RPAREN (errMsg c "Expected \x27)\x27 after function arguments in CREATE TRIGGER")
    pure { stmt4 with function_args := args }
  else pure stmt4

/-- Statement Parser::parse_statement(): fixed dispatch on the leading
keyword.  Note: CREATE is routed directly to parse_create_table_stmt
(the parse_create_stmt dispatcher in the source is never called). -/
def parse_statement (fuel : Nat) : PM Statement := do
  if (← matchM .SELECT) then do
    let s ← parse_select_stmt fuel
    pure (.select s)
  else if (← matchM .INSERT) then do
    let s ← parse_insert_stmt fuel
    pure (.insert s)
  else if (← matchM .CREATE) then do
    let s ← parse_create_table_stmt fuel
    pure (.create (.table s))
  else if (← matchM .DROP) then do
    let s ← parse_drop_stmt fuel
    pure (.drop s)
  else if (← matchM .ALTER) then do
    let s ← parse_alter_table_stmt fuel
    pure (.alter s)
  else do
    let cur ← currentM
    throw ("Unsupported statement type at line " ++ toString cur.line ++
           ", column " ++ toString cur.col)

/-- The `while (!is_end())` loop of Parser::parse(): a statement, then an
optional trailing SEMICOLON. -/
def parse_loop (fuel0 : Nat) : PM (List Statement) :=
  match fuel0 with
  | 0 => throw fuelMsg
  | fuel + 1 => do
    if (← isEndM) then pure []
    else do
      let s ← parse_statement fuel
      _ ← matchM .SEMICOLON
      let rest ← parse_loop fuel
      pure (s :: rest)
termination_by structural fuel0

/-- std::vector<Statement> Parser::parse() over a freshly lexed input:
tokenize eagerly, then run the statement loop from position 0.  The fuel
4*|tokens|+16 dominates the recursion depth of every call chain the
grammar can produce on the token buffer (each nesting level of every
loop or recursive call consumes at least one token per two fuel units),
so the fuel error cannot surface. -/
def parse (input : String) : Except String (List Statement) :=
  let ts := tokenize input
  match parse_loop (4 * ts.length + 16) ⟨ts, 0⟩ with
  | .ok r => .ok r.1
  | .error e => .error e

/-! ## Lexer progress lemmas

Every non-EOF token consumes at least one input character, so the
tokenization loop's fuel `input.length + 2` is always sufficient and the
token stream always ends in the EOF token (claim C9). -/

theorem chAt_of_len_le (l : List Char) (p : Nat) (h : l.length ≤ p) :
    chAt l p = Char.ofNat 0 := by
  unfold chAt
  exact List.getD_eq_default _ _ h

theorem pos_lt_of_ch_ne (st : LexState) (h : ch st ≠ Char.ofNat 0) :
    st.pos < st.input.length := by
  by_contra hc
  exact h (by unfold ch; exact chAt_of_len_le _ _ (Nat.le_of_not_lt hc))

theorem skipWsAux_spec (n : Nat) (st : LexState) :
    (skipWsAux n st).input = st.input ∧ st.pos ≤ (skipWsAux n st).pos := by
  induction n generalizing st with
  | zero => exact ⟨rfl, Nat.le_refl _⟩
  | succ n ih =>
    simp only [skipWsAux]
    split
    · have hrec := ih (readChar (if ch st == '\n' then
        { st with line := st.line + 1, col := 0 } else st))
      constructor
      · rw [hrec.1]
        split <;> rfl
      · refine Nat.le_trans ?_ hrec.2
        split <;> exact Nat.le_succ _
    · exact ⟨rfl, Nat.le_refl _⟩

theorem readIdentAux_spec (n : Nat) (st : LexState) :
    (readIdentAux n st).2.input = st.input ∧ st.pos ≤ (readIdentAux n st).2.pos := by
  induction n generalizing st with
  | zero => exact ⟨rfl, Nat.le_refl _⟩
  | succ n ih =>
    simp only [readIdentAux]
    split
    · have hrec := ih (readChar st)
      exact ⟨hrec.1, Nat.le_trans (Nat.le_succ _) hrec.2⟩
    · exact ⟨rfl, Nat.le_refl _⟩

theorem readNumAux_spec (n : Nat) (st : LexState) :
    (readNumAux n st).2.input = st.input ∧ st.pos ≤ (readNumAux n st).2.pos := by
  induction n generalizing st with
  | zero => exact ⟨rfl, Nat.le_refl _⟩
  | succ n ih =>
    simp only [readNumAux]
    split
    · have hrec := ih (readChar st)
      exact ⟨hrec.1, Nat.le_trans (Nat.le_succ _) hrec.2⟩
    · exact ⟨rfl, Nat.le_refl _⟩

theorem readStrAux_spec (n : Nat) (st : LexState) :
    (readStrAux n st).2.input = st.input ∧ st.pos ≤ (readStrAux n st).2.pos := by
  induction n generalizing st with
  | zero => exact ⟨rfl, Nat.le_refl _⟩
  | succ n ih =>
    simp only [readStrAux]
    split
    · have hrec := ih (readChar st)
      exact ⟨hrec.1, Nat.le_trans (Nat.le_succ _) hrec.2⟩
    · exact ⟨rfl, Nat.le_refl _⟩

theorem readIdentifier_strict (st : LexState)
    (hc : (isalphaC (ch st) || ch st == '_' || isdigitC (ch st)) = true) :
    (readIdentifier st).2.input = st.input ∧ st.pos < (readIdentifier st).2.pos := by
  have hne : ch st ≠ Char.ofNat 0 := by
    intro h
    rw [h] at hc
    exact absurd hc (by decide)
  have hlt := pos_lt_of_ch_ne st hne
  unfold readIdentifier
  obtain ⟨k, hk⟩ : ∃ k, st.input.length - st.pos = k + 1 :=
    ⟨st.input.length - st.pos - 1, by omega⟩
  rw [hk]
  simp only [readIdentAux]
  rw [if_pos hc]
  have hrec := readIdentAux_spec k (readChar st)
  exact ⟨hrec.1, Nat.lt_of_lt_of_le (Nat.lt_succ_self _) hrec.2⟩

theorem readNumber_strict (st : LexState)
    (hc : (isdigitC (ch st) || ch st == '.') = true) :
    (readNumber st).2.input = st.input ∧ st.pos < (readNumber st).2.pos := by
  have hne : ch st ≠ Char.ofNat 0 := by
    intro h
    rw [h] at hc
    exact absurd hc (by decide)
  have hlt := pos_lt_of_ch_ne st hne
  unfold readNumber
  obtain ⟨k, hk⟩ : ∃ k, st.input.length - st.pos = k + 1 :=
    ⟨st.input.length - st.pos - 1, by omega⟩
  rw [hk]
  simp only [readNumAux]
  rw [if_pos hc]
  have hrec := readNumAux_spec k (readChar st)
  exact ⟨hrec.1, Nat.lt_of_lt_of_le (Nat.lt_succ_self _) hrec.2⟩

theorem readString_strict (st : LexState) :
    (readString st).2.input = st.input ∧ st.pos < (readString st).2.pos := by
  unfold readString
  dsimp only
  have hrec := readStrAux_spec ((readChar st).input.length - (readChar st).pos) (readChar st)
  have h2 : st.pos + 1 ≤
      (readStrAux ((readChar st).input.length - (readChar st).pos) (readChar st)).2.pos :=
    hrec.2
  constructor
  · split
    · exact hrec.1
    · exact hrec.1
  · split
    · exact Nat.lt_succ_of_lt (Nat.lt_of_lt_of_le (Nat.lt_succ_self _) h2)
    · exact Nat.lt_of_lt_of_le (Nat.lt_succ_self _) h2

theorem progress_step (st0 stw : LexState) (hinp : stw.input = st0.input)
    (hle : st0.pos ≤ stw.pos) (hne : ch stw ≠ Char.ofNat 0) :
    st0.pos < st0.input.length ∧ st0.pos < (readChar stw).pos ∧
    (readChar stw).input = st0.input := by
  have hlt := pos_lt_of_ch_ne stw hne
  rw [hinp] at hlt
  exact ⟨Nat.lt_of_le_of_lt hle hlt, Nat.lt_succ_of_le hle, hinp⟩

set_option maxHeartbeats 1000000 in
theorem nextToken_progress (st0 : LexState) :
    (NextToken st0).1.type = .EOF_TOKEN ∨
    (st0.pos < st0.input.length ∧ st0.pos < (NextToken st0).2.pos ∧
     (NextToken st0).2.input = st0.input) := by
  have hws : (skipWhitespace st0).input = st0.input ∧ st0.pos ≤ (skipWhitespace st0).pos :=
    skipWsAux_spec _ _
  unfold NextToken
  set stw := skipWhitespace st0 with hstw
  dsimp only
  by_cases h1 : (ch stw == ',') = true
  · rw [if_pos h1]
    exact Or.inr (progress_step st0 stw hws.1 hws.2 (by rw [beq_iff_eq.mp h1]; decide))
  rw [if_neg h1]
  by_cases h2 : (ch stw == ';') = true
  · rw [if_pos h2]
    exact Or.inr (progress_step st0 stw hws.1 hws.2 (by rw [beq_iff_eq.mp h2]; decide))
  rw [if_neg h2]
  by_cases h3 : (ch stw == '*') = true
  · rw [if_pos h3]
    exact Or.inr (progress_step st0 stw hws.1 hws.2 (by rw [beq_iff_eq.mp h3]; decide))
  rw [if_neg h3]
  by_cases h4 : (ch stw == '.') = true
  · rw [if_pos h4]
    exact Or.inr (progress_step st0 stw hws.1 hws.2 (by rw [beq_iff_eq.mp h4]; decide))
  rw [if_neg h4]
  by_cases h5 : (ch stw == '=') = true
  · rw [if_pos h5]
    exact Or.inr (progress_step st0 stw hws.1 hws.2 (by rw [beq_iff_eq.mp h5]; decide))
  rw [if_neg h5]
  by_cases h6 : (ch stw == '(') = true
  · rw [if_pos h6]
    exact Or.inr (progress_step st0 stw hws.1 hws.2 (by rw [beq_iff_eq.mp h6]; decide))
  rw [if_neg h6]
  by_cases h7 : (ch stw == ')') = true
  · rw [if_pos h7]
    exact Or.inr (progress_step st0 stw hws.1 hws.2 (by rw [beq_iff_eq.mp h7]; decide))
  rw [if_neg h7]
  by_cases h8 : (ch stw == '+') = true
  · rw [if_pos h8]
    exact Or.inr (progress_step st0 stw hws.1 hws.2 (by rw [beq_iff_eq.mp h8]; decide))
  rw [if_neg h8]
  by_cases h9 : (ch stw == '-') = true
  · rw [if_pos h9]
    exact Or.inr (progress_step st0 stw hws.1 hws.2 (by rw [beq_iff_eq.mp h9]; decide))
  rw [if_neg h9]
  by_cases h10 : (ch stw == '%') = true
  · rw [if_pos h10]
    exact Or.inr (progress_step st0 stw hws.1 hws.2 (by rw [beq_iff_eq.mp h10]; decide))
  rw [if_neg h10]
  by_cases h11 : (ch stw == '^') = true
  · rw [if_pos h11]
    exact Or.inr (progress_step st0 stw hws.1 hws.2 (by rw [beq_iff_eq.mp h11]; decide))
  rw [if_neg h11]
  by_cases h12 : (ch stw == quoteC) = true
  · rw [if_pos h12]
    have hne : ch stw ≠ Char.ofNat 0 := by rw [beq_iff_eq.mp h12]; decide
    have hlt := pos_lt_of_ch_ne stw hne
    have hstr := readString_strict stw
    refine Or.inr ⟨?_, ?_, ?_⟩
    · rw [← hws.1]
      exact Nat.lt_of_le_of_lt hws.2 hlt
    · exact Nat.lt_of_le_of_lt hws.2 hstr.2
    · rw [hstr.1]
      exact hws.1
  rw [if_neg h12]
  by_cases h13 : (ch stw == nulC) = true
  · rw [if_pos h13]
    exact Or.inl rfl
  rw [if_neg h13]
  by_cases h14 : (isalphaC (ch stw) || ch stw == '_') = true
  · rw [if_pos h14]
    have hid := readIdentifier_strict stw (by
      rcases Bool.or_eq_true_iff.mp h14 with ha | hb
      · rw [Bool.or_eq_true_iff, Bool.or_eq_true_iff]
        exact Or.inl (Or.inl ha)
      · rw [Bool.or_eq_true_iff, Bool.or_eq_true_iff]
        exact Or.inl (Or.inr hb))
    have hne : ch stw ≠ Char.ofNat 0 := by
      rcases Bool.or_eq_true_iff.mp h14 with ha | hb
      · intro h
        rw [h] at ha
        exact absurd ha (by decide)
      · intro h
        rw [h] at hb
        exact absurd hb (by decide)
    have hlt := pos_lt_of_ch_ne stw hne
    refine Or.inr ⟨?_, ?_, ?_⟩
    · rw [← hws.1]
      exact Nat.lt_of_le_of_lt hws.2 hlt
    · exact Nat.lt_of_le_of_lt hws.2 hid.2
    · rw [hid.1]
      exact hws.1
  rw [if_neg h14]
  by_cases h15 : isdigitC (ch stw) = true
  · rw [if_pos h15]
    have hnum := readNumber_strict stw (Bool.or_eq_true_iff.mpr (Or.inl h15))
    have hne : ch stw ≠ Char.ofNat 0 := by
      intro h
      rw [h] at h15
      exact absurd h15 (by decide)
    have hlt := pos_lt_of_ch_ne stw hne
    refine Or.inr ⟨?_, ?_, ?_⟩
    · rw [← hws.1]
      exact Nat.lt_of_le_of_lt hws.2 hlt
    · exact Nat.lt_of_le_of_lt hws.2 hnum.2
    · rw [hnum.1]
      exact hws.1
  rw [if_neg h15]
  exact Or.inr (progress_step st0 stw hws.1 hws.2
    (fun h => h13 (by rw [h]; rfl)))

theorem getLast_cons_of_some {α : Type} (a b : α) (l : List α)
    (h : l.getLast? = some b) : (a :: l).getLast? = some b := by
  cases l with
  | nil => cases h
  | cons x xs =>
    rw [List.getLast?_cons_cons]
    exact h

theorem tokenizeAux_ends_eof (n : Nat) : ∀ st : LexState,
    st.input.length + 1 - st.pos < n →
    ∃ t, (tokenizeAux n st).getLast? = some t ∧ t.type = .EOF_TOKEN := by
  induction n with
  | zero =>
    intro st h
    omega
  | succ n ih =>
    intro st h
    simp only [tokenizeAux]
    split
    · next heq =>
      exact ⟨(NextToken st).1, rfl, beq_iff_eq.mp heq⟩
    · next hne =>
      rcases nextToken_progress st with he | ⟨hlt, hpos, hinp⟩
      · exact absurd (beq_iff_eq.mpr he) hne
      · have hm : (NextToken st).2.input.length + 1 - (NextToken st).2.pos < n := by
          rw [hinp]
          omega
        obtain ⟨t, hl, ht⟩ := ih (NextToken st).2 hm
        exact ⟨t, getLast_cons_of_some _ _ _ hl, ht⟩

/-- Whether `pat` occurs as a contiguous run inside `s`; used to state that
an error message mentions a source position. -/
def hasInfix (pat : List Char) : List Char → Bool
  | [] => pat == []
  | c :: cs => pat.isPrefixOf (c :: cs) || hasInfix pat cs

/-! ## The claims -/

/-- C1: precedence climbing.  "SELECT 1 + 2 * 3;" parses to one SelectStmt
whose single projection has root operator PLUS with a MUL right child over 2
and 3 (3 is not grouped with 1), and "SELECT (1 + 2) * 3;" parses with root
operator MUL whose left child is a PLUS node over 1 and 2. -/
theorem c1_precedence_climbing :
    parse "SELECT 1 + 2 * 3;" =
      .ok [.select { projections := [.bin .PLUS (.lit ⟨.INTEGER, .vint 1⟩)
                      (.bin .MUL (.lit ⟨.INTEGER, .vint 2⟩) (.lit ⟨.INTEGER, .vint 3⟩))] }] ∧
    parse "SELECT (1 + 2) * 3;" =
      .ok [.select { projections := [.bin .MUL
                      (.bin .PLUS (.lit ⟨.INTEGER, .vint 1⟩) (.lit ⟨.INTEGER, .vint 2⟩))
                      (.lit ⟨.INTEGER, .vint 3⟩)] }] :=
  ⟨by with_unfolding_all rfl, by with_unfolding_all rfl⟩

/-- C2: the claim fails on the code.  parse_create_table_stmt never consumes
the LPAREN after the table name (and its element loop unconditionally runs
`expect(RPAREN); return;` after one element), so the spec's canonical input
"CREATE TABLE t (id INTEGER PRIMARY KEY, name TEXT NOT NULL);" throws
"Expected column name in column definition" at the "(" instead of returning
the two-column statement.  The column grammar itself is fine: parse_column_def
on "id INTEGER PRIMARY KEY" produces the expected ColumnDef. -/
theorem c2_create_table_rejects_canonical_input :
    parse "CREATE TABLE t (id INTEGER PRIMARY KEY, name TEXT NOT NULL);" =
      .error "Expected column name in column definition at line 1, column 16 at line 1, column 16" ∧
    (((parse_column_def 40).run ⟨tokenize "id INTEGER PRIMARY KEY)", 0⟩).map Prod.fst) =
      .ok { name := "id", type := .INTEGER, primary_key := true } :=
  ⟨by with_unfolding_all rfl, by with_unfolding_all rfl⟩

/-- C3: the claim fails on the code.  parse_statement consumes the INSERT
keyword and then parse_insert_stmt immediately expects a second INSERT token
(and never accepts INTO), so every input of the claimed form
"INSERT [INTO] table (cols) VALUES (exprs);" throws "Expected INSERT keyword"
(with the position doubled, because the message passed to expect already
carries it) instead of returning an InsertStmt. -/
theorem c3_insert_rejects_all_insert_forms :
    parse "INSERT INTO t (id) VALUES (1);" =
      .error "Expected INSERT keyword at line 1, column 8 at line 1, column 8" ∧
    parse "INSERT t VALUES (1);" =
      .error "Expected INSERT keyword at line 1, column 8 at line 1, column 8" :=
  ⟨by with_unfolding_all rfl, by with_unfolding_all rfl⟩

/-- C4: the claim fails on the code.  parse_statement routes every CREATE to
parse_create_table_stmt, which rejects SEQUENCE expecting TABLE, so
"CREATE SEQUENCE s INCREMENT BY -1 START WITH 100;" throws instead of
returning a CreateSequenceStmt; parse_create_sequence_stmt itself (dead code,
reachable only through the never-called parse_create_stmt dispatcher) does
produce increment_by = -1 and start_value = 100 on the same clause stream. -/
theorem c4_create_sequence_never_dispatched :
    parse "CREATE SEQUENCE s INCREMENT BY -1 START WITH 100;" =
      .error "Expected TABLE keyword after CREATE at line 1, column 8 at line 1, column 8" ∧
    (((parse_create_sequence_stmt 60).run
        ⟨tokenize "SEQUENCE s INCREMENT BY -1 START WITH 100;", 0⟩).map Prod.fst) =
      .ok { sequence_name := "s", start_value := 100, increment_by := -1 } :=
  ⟨by with_unfolding_all rfl, by with_unfolding_all rfl⟩

/-- C5: the claim fails on the code.  NextToken has no case for the slash
character, so "/" lexes to ILLEGAL (never SLASH), and consequently
"SELECT 6 / 2;" does not produce a DIV node: the expression ends before the
ILLEGAL token and the parser then throws "Unsupported statement type" at it
(the SLASH kind, its precedence-5 entry and its DIV mapping are dead). -/
theorem c5_slash_lexes_to_illegal :
    (NextToken (initLex "/".data)).1 = ⟨.ILLEGAL, "/", 1, 1⟩ ∧
    parse "SELECT 6 / 2;" = .error "Unsupported statement type at line 1, column 10" :=
  ⟨by with_unfolding_all rfl, by with_unfolding_all rfl⟩

/-- C6: both malformed inputs raise a syntax error rather than returning a
(possibly truncated) statement sequence: "SELECT * FROM;" fails at the missing
table name and "SELECT (1 + 2;" fails at the missing closing parenthesis. -/
theorem c6_malformed_inputs_error :
    parse "SELECT * FROM;" = .error "Expected table name after FROM at line 1, column 14" ∧
    parse "SELECT (1 + 2;" = .error "Expected \x27)\x27 at line 1, column 14" :=
  ⟨by with_unfolding_all rfl, by with_unfolding_all rfl⟩

/-- C7 counterexample: not every parse failure carries a position.  The CARET
token has precedence 3, so "SELECT 1 ^ 2;" reaches the binary-operator mapping,
which throws the bare message "Unknown binary operator token" — a string that
does not mention any line (no " at line " fragment), refuting the claim that
every raised error carries the 1-based line and column of the offending
token. -/
theorem c7_counterexample_caret_error_has_no_position :
    parse "SELECT 1 ^ 2;" = .error "Unknown binary operator token" ∧
    hasInfix " at line ".data "Unknown binary operator token".data = false :=
  ⟨by with_unfolding_all rfl, by with_unfolding_all rfl⟩

/-- C7 (amended): every failure raised through the parser's expect primitive
carries the expectation message together with the current token's line and
column; the exception is the binary-operator mapping, whose failure (reached
by the '^' token, precedence level 3 with no mapping) carries no position. -/
theorem c7_expect_errors_carry_position (st : PState) (ty : TokT) (msg e : String)
    (h : pexpect ty msg st = .error e) :
    e = msg ++ " at line " ++ toString (pcurrent st).line ++ ", column " ++
        toString (pcurrent st).col := by
  unfold pexpect at h
  dsimp only at h
  split at h
  · cases h
  · cases h
    rfl

theorem c7_expect_errors_carry_position_witness :
    ("mymsg at line 3, column 7" : String) =
      "mymsg" ++ " at line " ++ toString (pcurrent ⟨[⟨.NUMBER, "1", 3, 7⟩], 0⟩).line ++
      ", column " ++ toString (pcurrent ⟨[⟨.NUMBER, "1", 3, 7⟩], 0⟩).col :=
  c7_expect_errors_carry_position ⟨[⟨.NUMBER, "1", 3, 7⟩], 0⟩ .SELECT "mymsg"
    "mymsg at line 3, column 7" (by with_unfolding_all rfl)

/-- C8: keyword lookup is case-insensitive — it depends only on the uppercased
spelling, for every reserved word and every other string — and the emitted
tokens preserve the original-case source text: "select FroM" lexes to a SELECT
token with text "select" and a FROM token with text "FroM", while the
non-keyword "sel_x" lexes to an IDENTIFIER token with its original text. -/
theorem c8_keywords_case_insensitive :
    (∀ s t : String, toupperStr s = toupperStr t → lookupIdent s = lookupIdent t) ∧
    tokenize "select FroM" =
      [⟨.SELECT, "select", 1, 1⟩, ⟨.FROM, "FroM", 1, 8⟩, ⟨.EOF_TOKEN, "\x00", 1, 12⟩] ∧
    tokenize "sel_x" = [⟨.IDENTIFIER, "sel_x", 1, 1⟩, ⟨.EOF_TOKEN, "\x00", 1, 6⟩] := by
  refine ⟨fun s t h => ?_, by with_unfolding_all rfl, by with_unfolding_all rfl⟩
  unfold lookupIdent
  rw [h]

theorem c8_keywords_case_insensitive_witness :
    lookupIdent "SeLeCt" = lookupIdent "select" :=
  c8_keywords_case_insensitive.1 "SeLeCt" "select" (by with_unfolding_all rfl)

/-- C9: for every input the lexer terminates and the eagerly built token
stream ends in the EOF token (NextToken always returns a token and never
raises — every non-EOF token strictly consumes input, so the tokenization
fuel `length + 2` always suffices); and the unterminated string literal input
"SELECT 'abc" terminates at end of input with the captured partial content
"abc" as the STRING token's text. -/
theorem c9_lexer_terminates_with_eof :
    (∀ s : String, ∃ t, (tokenize s).getLast? = some t ∧ t.type = .EOF_TOKEN) ∧
    tokenize "SELECT \x27abc" =
      [⟨.SELECT, "SELECT", 1, 1⟩, ⟨.STRING, "abc", 1, 12⟩, ⟨.EOF_TOKEN, "\x00", 1, 12⟩] := by
  constructor
  · intro s
    apply tokenizeAux_ends_eof
    show s.data.length + 1 - 0 < s.length + 2
    have hs : s.length = s.data.length := rfl
    omega
  · with_unfolding_all rfl

/-- C10 counterexample: on a CREATE TRIGGER input with an UPDATE OF clause the
first append to update_of_columns happens while the optional is still
disengaged — parse_create_trigger_stmt dereferences it without ever engaging
it; with that dereference modeled as an explicit failure, the parse fails
instead of returning a CreateTriggerStmt carrying the listed columns, so the
appends are not guarded by the optional holding a value. -/
theorem c10_counterexample_update_of_dereferences_disengaged_optional :
    (((parse_create_trigger_stmt 80).run
        ⟨tokenize "TRIGGER tr BEFORE UPDATE OF a, b ON t EXECUTE FUNCTION f;", 0⟩).map Prod.fst) =
      .error "undefined behavior: dereference of disengaged optional update_of_columns" :=
  by with_unfolding_all rfl

/-- C10 (amended): the UPDATE OF appends occur while update_of_columns never
holds a value — the append helper fails exactly on the disengaged optional —
so any UPDATE OF trigger fails at its first column, while the same trigger
without the OF clause parses and leaves update_of_columns disengaged. -/
theorem c10_update_of_append_unsafe :
    optAppend none "a" =
      .error "undefined behavior: dereference of disengaged optional update_of_columns" ∧
    (((parse_create_trigger_stmt 80).run
        ⟨tokenize "TRIGGER tr BEFORE UPDATE ON t EXECUTE FUNCTION f;", 0⟩).map Prod.fst) =
      .ok { trigger_name := "tr", table_name := "t", timing := .BEFORE,
            events := [.UPDATE], function_name := "f" } :=
  ⟨rfl, by with_unfolding_all rfl⟩

end Fluxo
